import Mathlib

/- Verification of the open-carousel teleportation and scroll-coordination
engine.  The definitions below are shallow embeddings of the TypeScript
source: the coordinator reducer (useCarouselCoordinator.ts), the pure
utilities (utils.ts), the teleport engine (useCarouselTeleport), the
navigation controller (useCarouselNavigation.ts), the visual-effects
formulas (useCarouselVisuals) and the drag/rubber-band physics
(useDraggableScroll).  Pixel quantities are modelled as rationals; the
single square root of the rubber-band damping is modelled over the reals. -/

namespace OpenCarousel

/- ═══════════ Coordinator state machine (useCarouselCoordinator.ts) ═══════════ -/

/-- The seven coordinator phases, exactly as in the source enum. -/
inductive CarouselPhase
  | UNINITIALIZED
  | IDLE
  | SCROLLING
  | BOUNCING
  | PRE_TELEPORTING
  | TELEPORTING
  | DRAGGING
deriving DecidableEq, Repr

/-- The coordinator context record.  Scroll offsets are rationals, timer
handles are modelled as natural-number ids. -/
structure CarouselContext where
  phase : CarouselPhase
  pendingTarget : Option ℚ
  scrollDirection : Option ℤ
  teleportOffset : Option ℚ
  isTeleporting : Bool
  isPreTeleporting : Bool
  lastActiveItemKey : Option String
  snapTimeoutId : Option ℕ
  scrollIdleTimeoutId : Option ℕ
  bounceTimeoutId : Option ℕ
  hasScrollEndListener : Bool
deriving DecidableEq, Repr

/-- The initial context (createInitialContext in the source). -/
def createInitialContext : CarouselContext where
  phase := .UNINITIALIZED
  pendingTarget := none
  scrollDirection := none
  teleportOffset := none
  isTeleporting := false
  isPreTeleporting := false
  lastActiveItemKey := none
  snapTimeoutId := none
  scrollIdleTimeoutId := none
  bounceTimeoutId := none
  hasScrollEndListener := false

/-- All coordinator actions, exactly as in the source union type. -/
inductive CarouselAction
  | INITIALIZE
  | ARROW_CLICK (direction : ℤ) (targetScroll : ℚ)
  | ITEM_CLICK (targetScroll : ℚ)
  | SCROLL_COMPLETE
  | USER_INTERRUPT
  | START_BOUNCE (timeoutId : ℕ)
  | END_BOUNCE
  | START_PRE_TELEPORT
  | EXECUTE_TELEPORT (offset : ℚ)
  | END_TELEPORT
  | START_DRAG
  | END_DRAG
  | SET_SNAP_TIMEOUT (timeoutId : ℕ)
  | CLEAR_SNAP_TIMEOUT
  | SET_SCROLL_IDLE_TIMEOUT (timeoutId : ℕ)
  | CLEAR_SCROLL_IDLE_TIMEOUT
  | SET_SCROLL_END_LISTENER (hasListener : Bool)
  | SET_ACTIVE_ITEM_KEY (key : Option String)
  | SET_TELEPORTING (value : Bool)
  | SET_PRE_TELEPORTING (value : Bool)
  | SET_PENDING_TARGET (target : ℚ)
deriving DecidableEq, Repr

/-- The pure reducer of useCarouselCoordinator.ts, translated case by case. -/
def reduce (context : CarouselContext) (action : CarouselAction) : CarouselContext :=
  match action with
  | .INITIALIZE =>
      { context with phase := .IDLE }
  | .ARROW_CLICK direction targetScroll =>
      if context.phase ≠ .IDLE ∧ context.phase ≠ .SCROLLING then context
      else { context with
              phase := .SCROLLING
              pendingTarget := some targetScroll
              scrollDirection := some direction }
  | .ITEM_CLICK targetScroll =>
      if context.phase ≠ .IDLE ∧ context.phase ≠ .SCROLLING then context
      else { context with
              phase := .SCROLLING
              pendingTarget := some targetScroll
              scrollDirection := none }
  | .SCROLL_COMPLETE =>
      if context.phase ≠ .SCROLLING then context
      else { context with
              phase := .IDLE
              pendingTarget := none
              scrollDirection := none
              hasScrollEndListener := false }
  | .USER_INTERRUPT =>
      if context.phase = .SCROLLING then
        { context with
            phase := .IDLE
            pendingTarget := none
            scrollDirection := none }
      else context
  | .START_BOUNCE timeoutId =>
      if context.phase ≠ .IDLE then context
      else { context with phase := .BOUNCING, bounceTimeoutId := some timeoutId }
  | .END_BOUNCE =>
      if context.phase ≠ .BOUNCING then context
      else { context with phase := .IDLE, bounceTimeoutId := none }
  | .START_PRE_TELEPORT =>
      { context with phase := .PRE_TELEPORTING }
  | .EXECUTE_TELEPORT offset =>
      if context.phase ≠ .PRE_TELEPORTING then context
      else { context with phase := .TELEPORTING, teleportOffset := some offset }
  | .END_TELEPORT =>
      if context.phase ≠ .TELEPORTING then context
      else
        let nextPhase : CarouselPhase :=
          if context.pendingTarget ≠ none then .SCROLLING else .IDLE
        { context with phase := nextPhase, teleportOffset := none }
  | .START_DRAG =>
      { context with
          phase := .DRAGGING
          pendingTarget := none
          scrollDirection := none }
  | .END_DRAG =>
      if context.phase ≠ .DRAGGING then context
      else { context with phase := .IDLE }
  | .SET_SNAP_TIMEOUT timeoutId =>
      { context with snapTimeoutId := some timeoutId }
  | .CLEAR_SNAP_TIMEOUT =>
      { context with snapTimeoutId := none }
  | .SET_SCROLL_IDLE_TIMEOUT timeoutId =>
      { context with scrollIdleTimeoutId := some timeoutId }
  | .CLEAR_SCROLL_IDLE_TIMEOUT =>
      { context with scrollIdleTimeoutId := none }
  | .SET_SCROLL_END_LISTENER hasListener =>
      { context with hasScrollEndListener := hasListener }
  | .SET_ACTIVE_ITEM_KEY key =>
      { context with lastActiveItemKey := key }
  | .SET_TELEPORTING value =>
      { context with isTeleporting := value }
  | .SET_PRE_TELEPORTING value =>
      if value then
        { context with isPreTeleporting := true }
      else
        let nextPhase : CarouselPhase :=
          if context.pendingTarget ≠ none then .SCROLLING else .IDLE
        { context with isPreTeleporting := false, phase := nextPhase }
  | .SET_PENDING_TARGET target =>
      { context with pendingTarget := some target }

/-- A context is reachable when some finite action sequence leads to it from
the initial context through the pure reducer. -/
def reachable (c : CarouselContext) : Prop :=
  ∃ l : List CarouselAction, c = l.foldl reduce createInitialContext

/-- The spec coordinator invariant: pendingTarget is non-null iff the phase
is SCROLLING or PRE_TELEPORTING. -/
def coordInv (c : CarouselContext) : Prop :=
  c.pendingTarget ≠ none ↔ (c.phase = .SCROLLING ∨ c.phase = .PRE_TELEPORTING)

instance (c : CarouselContext) : Decidable (coordInv c) := by
  unfold coordInv; infer_instance

/- ═══════════ Pure utilities (utils.ts) ═══════════ -/

/-- Teleport direction, the two non-null results of shouldTeleport. -/
inductive TeleportDir
  | left
  | right
deriving DecidableEq, Repr

/-- shouldTeleport from utils.ts: left when the offset is below the buffer,
right when it is at or above the right threshold, none otherwise. -/
def shouldTeleport (scrollLeft bufferWidth rightThreshold : ℚ) : Option TeleportDir :=
  if scrollLeft < bufferWidth then some .left
  else if scrollLeft ≥ rightThreshold then some .right
  else none

/-- calculateCenterIndex from utils.ts. -/
def calculateCenterIndex (scrollLeft stride : ℚ) : ℤ :=
  if stride ≤ 0 then 0 else round (scrollLeft / stride)

/-- calculateVisualScale from utils.ts (the linear falloff used by tests). -/
def calculateVisualScale (distanceFromCenter halfViewport baseScale : ℚ) : ℚ :=
  let normalizedDistance := min (distanceFromCenter / halfViewport) 1
  baseScale + (1 - baseScale) * (1 - normalizedDistance)

/-- calculateVisualOpacity from utils.ts. -/
def calculateVisualOpacity (distanceFromCenter halfViewport baseOpacity centerThreshold : ℚ) : ℚ :=
  if distanceFromCenter < centerThreshold then 1
  else
    let normalizedDistance := min (distanceFromCenter / halfViewport) 1
    baseOpacity + (1 - baseOpacity) * (1 - normalizedDistance)

/-- Result record of calculateRapidClickTarget from utils.ts. -/
structure RapidClickResult where
  shouldCatchUp : Bool
  previousTarget : Option ℚ
  nextTarget : ℚ
deriving DecidableEq, Repr

/-- calculateRapidClickTarget from utils.ts: the Catch-Up and Advance
strategy for rapid arrow clicks. -/
def calculateRapidClickTarget (pendingTarget : Option ℚ) (currentScroll : ℚ)
    (direction : ℤ) (stride : ℚ) : RapidClickResult :=
  match pendingTarget with
  | some t =>
      { shouldCatchUp := true
        previousTarget := some t
        nextTarget := t + direction * stride }
  | none =>
      let currentIndex : ℤ := round (currentScroll / stride)
      { shouldCatchUp := false
        previousTarget := none
        nextTarget := (currentIndex + direction) * stride }

/-- calculateTeleportOffset from utils.ts. -/
def calculateTeleportOffset (direction : TeleportDir) (originalSetWidth : ℚ) : ℚ :=
  match direction with
  | .left => originalSetWidth
  | .right => -originalSetWidth

/-- isAtTarget from utils.ts. -/
def isAtTarget (currentPos targetPos tolerance : ℚ) : Prop :=
  |currentPos - targetPos| ≤ tolerance

/- ═══════════ Reactive teleport (performTeleport, useCarouselTeleport) ═══════════ -/

/-- The event sources on which performTeleport is invoked. -/
inductive TeleportSource
  | scroll
  | scrollend
  | pointerdown
deriving DecidableEq, Repr

/-- Outcome of one performTeleport invocation: whether a teleport happened,
the resulting scroll offset, and the resulting coordinator context. -/
structure TeleportResult where
  didTeleport : Bool
  scrollLeft : ℚ
  ctx : CarouselContext
deriving DecidableEq, Repr

/-- performTeleport from useCarouselTeleport: the reactive threshold check
and single-rewrite teleport.  bufferBeforeWidth and originalSetWidth are the
values computed once in the enclosing effect from the resolved stride. -/
def performTeleport (ctx : CarouselContext) (scrollLeft bufferBeforeWidth originalSetWidth : ℚ)
    (source : TeleportSource) : TeleportResult :=
  if ctx.isTeleporting then ⟨false, scrollLeft, ctx⟩
  else if ctx.pendingTarget ≠ none ∧ source = .scroll then ⟨false, scrollLeft, ctx⟩
  else if scrollLeft ≥ bufferBeforeWidth + originalSetWidth then
    -- Teleport back: remove every whole original-set width of overshoot
    let overshoot := scrollLeft - bufferBeforeWidth
    let setsPassed : ℤ := ⌊overshoot / originalSetWidth⌋
    if 0 < setsPassed then
      let adjust := (setsPassed : ℚ) * originalSetWidth
      let newPos := scrollLeft - adjust
      let ctx1 := reduce ctx (.SET_TELEPORTING true)
      let ctx2 := reduce ctx1 (.SET_TELEPORTING false)
      let ctx3 := reduce ctx2 .END_TELEPORT
      ⟨true, newPos, ctx3⟩
    else ⟨false, scrollLeft, ctx⟩
  else if scrollLeft < bufferBeforeWidth then
    -- Teleport forward by one set width
    let newPos := scrollLeft + originalSetWidth
    let ctx1 := reduce ctx (.SET_TELEPORTING true)
    let ctx2 := reduce ctx1 (.SET_TELEPORTING false)
    let ctx3 := reduce ctx2 .END_TELEPORT
    ⟨true, newPos, ctx3⟩
  else ⟨false, scrollLeft, ctx⟩

/- ═══════════ C1, C2: teleport exactness and boundary inclusivity ═══════════ -/

lemma performTeleport_overshoot (ctx : CarouselContext)
    (x buffer setW : ℚ) (source : TeleportSource)
    (hset : 0 < setW) (hx : buffer + setW ≤ x)
    (ht : ctx.isTeleporting = false)
    (hp : ctx.pendingTarget = none ∨ source ≠ .scroll) :
    performTeleport ctx x buffer setW source =
      ⟨true, x - (⌊(x - buffer) / setW⌋ : ℚ) * setW,
        reduce (reduce (reduce ctx (.SET_TELEPORTING true)) (.SET_TELEPORTING false))
          .END_TELEPORT⟩ := by
  have hguard : ¬(ctx.pendingTarget ≠ none ∧ source = .scroll) := by
    rcases hp with hp | hp
    · exact fun h => h.1 hp
    · exact fun h => hp h.2
  have hge : x ≥ buffer + setW := hx
  have hq1 : (1 : ℚ) ≤ (x - buffer) / setW := by
    rw [le_div_iff hset]; linarith
  have hfl1 : (1 : ℤ) ≤ ⌊(x - buffer) / setW⌋ := by
    exact Int.le_floor.mpr (by exact_mod_cast hq1)
  unfold performTeleport
  rw [if_neg (by simp [ht]), if_neg hguard, if_pos hge, if_pos (by exact_mod_cast hfl1)]

/-- C1 Reactive teleport exactness: for every offset x at or past the right
threshold, one performTeleport invocation rewrites the offset exactly once,
subtracting floor((x - bufferBeforeWidth) / originalSetWidth) *
originalSetWidth, and the corrected offset lands in the safe zone
[bufferBeforeWidth, bufferBeforeWidth + originalSetWidth), regardless of the
overshoot magnitude. -/
theorem reactive_teleport_exactness (ctx : CarouselContext)
    (x buffer setW : ℚ) (source : TeleportSource)
    (hset : 0 < setW) (hx : buffer + setW ≤ x)
    (ht : ctx.isTeleporting = false)
    (hp : ctx.pendingTarget = none ∨ source ≠ .scroll) :
    (performTeleport ctx x buffer setW source).didTeleport = true ∧
    (performTeleport ctx x buffer setW source).scrollLeft =
      x - (⌊(x - buffer) / setW⌋ : ℚ) * setW ∧
    buffer ≤ (performTeleport ctx x buffer setW source).scrollLeft ∧
    (performTeleport ctx x buffer setW source).scrollLeft < buffer + setW := by
  rw [performTeleport_overshoot ctx x buffer setW source hset hx ht hp]
  refine ⟨rfl, rfl, ?_, ?_⟩
  · have hlow : ((⌊(x - buffer) / setW⌋ : ℤ) : ℚ) ≤ (x - buffer) / setW :=
      Int.floor_le _
    have := (le_div_iff hset).mp hlow
    simp only [TeleportResult.scrollLeft]
    linarith
  · have hhigh : (x - buffer) / setW < (⌊(x - buffer) / setW⌋ : ℚ) + 1 :=
      Int.lt_floor_add_one _
    have := (div_lt_iff hset).mp hhigh
    simp only [TeleportResult.scrollLeft]
    nlinarith

/-- Witness for C1 at the spec scenario: safe zone [4176, 8352), offset 8353
teleports back to 4177. -/
theorem reactive_teleport_exactness_witness :
    (performTeleport createInitialContext 8353 4176 4176 .scrollend).didTeleport = true ∧
    (performTeleport createInitialContext 8353 4176 4176 .scrollend).scrollLeft =
      8353 - (⌊((8353 : ℚ) - 4176) / 4176⌋ : ℚ) * 4176 ∧
    (4176 : ℚ) ≤ (performTeleport createInitialContext 8353 4176 4176 .scrollend).scrollLeft ∧
    (performTeleport createInitialContext 8353 4176 4176 .scrollend).scrollLeft < 4176 + 4176 :=
  reactive_teleport_exactness createInitialContext 8353 4176 4176 .scrollend
    (by norm_num) (by norm_num) rfl (Or.inl rfl)

/-- C2 Boundary inclusivity: an offset exactly at bufferBeforeWidth is safe
(shouldTeleport reports none and performTeleport changes nothing), while an
offset exactly at bufferBeforeWidth + originalSetWidth teleports (the upper
bound is inclusive, the lower bound value itself is safe). -/
theorem teleport_boundary_inclusivity (ctx : CarouselContext)
    (buffer setW : ℚ) (source : TeleportSource)
    (hset : 0 < setW)
    (ht : ctx.isTeleporting = false)
    (hp : ctx.pendingTarget = none ∨ source ≠ .scroll) :
    shouldTeleport buffer buffer (buffer + setW) = none ∧
    shouldTeleport (buffer + setW) buffer (buffer + setW) = some .right ∧
    performTeleport ctx buffer buffer setW source = ⟨false, buffer, ctx⟩ ∧
    (performTeleport ctx (buffer + setW) buffer setW source).didTeleport = true ∧
    (performTeleport ctx (buffer + setW) buffer setW source).scrollLeft = buffer := by
  refine ⟨?_, ?_, ?_, ?_, ?_⟩
  · unfold shouldTeleport
    rw [if_neg (lt_irrefl buffer), if_neg (by intro h; linarith)]
  · unfold shouldTeleport
    rw [if_neg (by intro h; linarith), if_pos le_rfl]
  · unfold performTeleport
    rw [if_neg (by simp [ht])]
    by_cases hguard : ctx.pendingTarget ≠ none ∧ source = .scroll
    · rw [if_pos hguard]
    · rw [if_neg hguard, if_neg (by intro h; linarith), if_neg (lt_irrefl buffer)]
  · have h := performTeleport_overshoot ctx (buffer + setW) buffer setW source hset
      le_rfl ht hp
    rw [h]
  · have h := performTeleport_overshoot ctx (buffer + setW) buffer setW source hset
      le_rfl ht hp
    rw [h]
    have hq : (buffer + setW - buffer) / setW = 1 := by
      field_simp
    simp only [TeleportResult.scrollLeft, hq]
    norm_num

/-- Witness for C2 with buffer 4176 and set width 4176. -/
theorem teleport_boundary_inclusivity_witness :
    shouldTeleport 4176 4176 (4176 + 4176) = none ∧
    shouldTeleport (4176 + 4176) 4176 (4176 + 4176) = some .right ∧
    performTeleport createInitialContext 4176 4176 4176 .scroll =
      ⟨false, 4176, createInitialContext⟩ ∧
    (performTeleport createInitialContext (4176 + 4176) 4176 4176 .scroll).didTeleport = true ∧
    (performTeleport createInitialContext (4176 + 4176) 4176 4176 .scroll).scrollLeft = 4176 :=
  teleport_boundary_inclusivity createInitialContext 4176 4176 .scroll
    (by decide) rfl (Or.inl rfl)

/- ═══════════ C10, C6, C3: coordinator transition properties ═══════════ -/

/-- C10 StartDrag pre-empts every phase: from any context, reducing
START_DRAG yields phase DRAGGING with pendingTarget and scrollDirection
cleared, cancelling any in-flight programmatic scroll. -/
theorem start_drag_preempts_every_phase (ctx : CarouselContext) :
    reduce ctx .START_DRAG =
      { ctx with phase := .DRAGGING, pendingTarget := none, scrollDirection := none } :=
  rfl

/-- C6 counterexample: dispatching START_PRE_TELEPORT from IDLE is not
silently ignored; the reducer changes the context (the phase moves to
PRE_TELEPORTING), contradicting the claimed SCROLLING-only guard. -/
theorem start_pre_teleport_guard_counterexample :
    reduce (reduce createInitialContext .INITIALIZE) .START_PRE_TELEPORT ≠
      reduce createInitialContext .INITIALIZE := by
  decide

/-- C6 amended: the reducer applies START_PRE_TELEPORT unconditionally; from
every phase it moves the phase to PRE_TELEPORTING and leaves all other
fields unchanged (the source dispatches it only while SCROLLING, but the
reducer itself has no guard). -/
theorem start_pre_teleport_unconditional (ctx : CarouselContext) :
    reduce ctx .START_PRE_TELEPORT = { ctx with phase := .PRE_TELEPORTING } :=
  rfl

/-- C3 counterexample: a context reachable from the initial context through
the pure reducer that violates the pendingTarget-iff-phase invariant (after
INITIALIZE then START_PRE_TELEPORT, the phase is PRE_TELEPORTING while
pendingTarget is still null, and nothing resolves it in that step). -/
theorem coord_invariant_counterexample :
    reachable (reduce (reduce createInitialContext .INITIALIZE) .START_PRE_TELEPORT) ∧
    ¬ coordInv (reduce (reduce createInitialContext .INITIALIZE) .START_PRE_TELEPORT) :=
  ⟨⟨[.INITIALIZE, .START_PRE_TELEPORT], rfl⟩, by decide⟩

/-- The side condition under which a reducer transition preserves the
coordinator invariant: every action qualifies unconditionally except
INITIALIZE (which must not fire while a target is pending), EXECUTE_TELEPORT
(which moves a pending target into the TELEPORTING phase), and the two
unguarded pre-teleport writes START_PRE_TELEPORT and SET_PENDING_TARGET
(which preserve the invariant exactly when the phase is already SCROLLING or
PRE_TELEPORTING, the pre-teleport rewrite window). -/
def invPreservingFor (ctx : CarouselContext) (action : CarouselAction) : Prop :=
  match action with
  | .INITIALIZE => ctx.phase ≠ .SCROLLING ∧ ctx.phase ≠ .PRE_TELEPORTING
  | .EXECUTE_TELEPORT _ => ctx.phase ≠ .PRE_TELEPORTING
  | .START_PRE_TELEPORT => ctx.phase = .SCROLLING ∨ ctx.phase = .PRE_TELEPORTING
  | .SET_PENDING_TARGET _ => ctx.phase = .SCROLLING ∨ ctx.phase = .PRE_TELEPORTING
  | _ => True

/-- C3 amended: the invariant that pendingTarget is non-null iff the phase
is SCROLLING or PRE_TELEPORTING is preserved by every reducer transition
except the unguarded INITIALIZE, EXECUTE_TELEPORT, START_PRE_TELEPORT and
SET_PENDING_TARGET writes, and the latter two do preserve it whenever the
phase is already SCROLLING or PRE_TELEPORTING (the pre-teleport window). -/
theorem coord_invariant_preservation (ctx : CarouselContext) (action : CarouselAction)
    (hInv : coordInv ctx) (h : invPreservingFor ctx action) :
    coordInv (reduce ctx action) := by
  unfold coordInv at hInv ⊢
  cases action <;>
    simp only [reduce, invPreservingFor] at h ⊢ <;>
    (try split_ifs) <;>
    simp_all

/-- Witness for C3 amended at the initial context with START_DRAG. -/
theorem coord_invariant_preservation_witness :
    coordInv (reduce createInitialContext .START_DRAG) :=
  coord_invariant_preservation createInitialContext .START_DRAG (by decide) trivial

/- ═══════════ Proactive pre-teleport (preTeleport, useCarouselTeleport) ═══════════ -/

/-- Stride selection shared by the teleport handlers, preTeleport and the
navigation controller: the measured DOM stride (second child offsetLeft
minus first child offsetLeft) wins over cardWidth + gap when at least two
children are rendered, the measured stride is positive and the two disagree
by more than one pixel. -/
def resolveStride (calculated domStride : ℚ) (childrenCount : ℕ) : ℚ :=
  if 1 < childrenCount ∧ 0 < domStride ∧ 1 < |domStride - calculated| then domStride
  else calculated

/-- The environment preTeleport and the reactive handlers close over:
element presence, the infinite flag, item counts and the measured layout. -/
structure TeleportEnv where
  elPresent : Bool
  infinite : Bool
  itemsCount : ℕ
  cardWidth : ℚ
  gap : ℚ
  bufferBeforeCount : ℕ
  childrenCount : ℕ
  domStride : ℚ

/-- The stride preTeleport resolves at its call site. -/
def TeleportEnv.stride (env : TeleportEnv) : ℚ :=
  resolveStride (env.cardWidth + env.gap) env.domStride env.childrenCount

/-- originalSetWidth = itemsCount * stride. -/
def TeleportEnv.originalSetWidth (env : TeleportEnv) : ℚ :=
  env.itemsCount * env.stride

/-- bufferBeforeWidth = bufferBeforeCount * stride. -/
def TeleportEnv.bufferBeforeWidth (env : TeleportEnv) : ℚ :=
  env.bufferBeforeCount * env.stride

/-- preTeleport from useCarouselTeleport: the proactive check before an
arrow navigation.  Returns the (possibly adjusted) target together with the
resulting coordinator context and live scroll offset.  The deferred
SET_PRE_TELEPORTING false (a timeout) is not part of this synchronous
step. -/
def preTeleport (env : TeleportEnv) (ctx : CarouselContext) (scrollLeft targetScroll : ℚ) :
    ℚ × CarouselContext × ℚ :=
  if ¬env.elPresent ∨ ¬env.infinite ∨ env.itemsCount = 0 then (targetScroll, ctx, scrollLeft)
  else
    let originalSetWidth := env.originalSetWidth
    let bufferBeforeWidth := env.bufferBeforeWidth
    if targetScroll ≥ bufferBeforeWidth ∧ targetScroll < bufferBeforeWidth + originalSetWidth then
      -- neither needsLeftPreTeleport nor needsRightPreTeleport: no-op
      (targetScroll, ctx, scrollLeft)
    else
      let needsLeftPreTeleport := targetScroll < bufferBeforeWidth
      let offset := if needsLeftPreTeleport then originalSetWidth else -originalSetWidth
      let adjustedTarget := targetScroll + offset
      let ctx1 := reduce ctx (.SET_PRE_TELEPORTING true)
      let ctx2 := reduce ctx1 .START_PRE_TELEPORT
      let ctx3 := reduce ctx2 (.SET_TELEPORTING true)
      let newScrollLeft := scrollLeft + offset
      let ctx4 := reduce ctx3 (.SET_TELEPORTING false)
      let ctx5 := reduce ctx4 (.SET_PENDING_TARGET adjustedTarget)
      (adjustedTarget, ctx5, newScrollLeft)

lemma preTeleport_of_safe (env : TeleportEnv) (ctx : CarouselContext)
    (scrollLeft targetScroll : ℚ)
    (h1 : env.bufferBeforeWidth ≤ targetScroll)
    (h2 : targetScroll < env.bufferBeforeWidth + env.originalSetWidth) :
    preTeleport env ctx scrollLeft targetScroll = (targetScroll, ctx, scrollLeft) := by
  simp only [preTeleport]
  split_ifs with hg hs h3
  · rfl
  · rfl
  all_goals exact absurd ⟨h1, h2⟩ hs

/-- C4 Idempotent safe zone: for every target offset inside the safe zone
[bufferBeforeWidth, bufferBeforeWidth + originalSetWidth), preTeleport
returns the target unchanged and performs no coordinator phase change or
flag transition at all: it is the identity on the whole (target, context,
scroll offset) state. -/
theorem pre_teleport_safe_zone_identity (env : TeleportEnv) (ctx : CarouselContext)
    (scrollLeft targetScroll : ℚ)
    (h1 : env.bufferBeforeWidth ≤ targetScroll)
    (h2 : targetScroll < env.bufferBeforeWidth + env.originalSetWidth) :
    preTeleport env ctx scrollLeft targetScroll = (targetScroll, ctx, scrollLeft) :=
  preTeleport_of_safe env ctx scrollLeft targetScroll h1 h2

/-- Witness for C4: a ten-item infinite carousel with stride 12, safe zone
[120, 180), target 130 passes through preTeleport untouched. -/
theorem pre_teleport_safe_zone_identity_witness :
    preTeleport ⟨true, true, 5, 10, 2, 10, 0, 0⟩ createInitialContext 130 130 =
      (130, createInitialContext, 130) :=
  pre_teleport_safe_zone_identity ⟨true, true, 5, 10, 2, 10, 0, 0⟩ createInitialContext 130 130
    (by norm_num [TeleportEnv.bufferBeforeWidth, TeleportEnv.stride, resolveStride])
    (by norm_num [TeleportEnv.bufferBeforeWidth, TeleportEnv.originalSetWidth,
      TeleportEnv.stride, resolveStride])

/- ═══════════ Navigation controller (handleScrollNav, useCarouselNavigation.ts) ═══════════ -/

/-- LAYOUT_CONFIG.EDGE_TOLERANCE_START. -/
def EDGE_TOLERANCE_START : ℚ := 20

/-- LAYOUT_CONFIG.EDGE_TOLERANCE_END. -/
def EDGE_TOLERANCE_END : ℚ := 5

/-- The environment handleScrollNav closes over.  childLeft models
el.children[index].offsetLeft for a rendered child (none when the index is
out of range, as the source then falls back to arithmetic). -/
structure NavEnv where
  elPresent : Bool
  infinite : Bool
  itemsCount : ℕ
  bufferBeforeCount : ℕ
  cardWidth : ℚ
  gap : ℚ
  childrenCount : ℕ
  domStride : ℚ
  firstChildLeft : ℚ
  childLeft : ℤ → Option ℚ
  maxScroll : ℚ

/-- The teleport environment the preTeleport closure of the same carousel
instance sees (identical props). -/
def NavEnv.toTeleportEnv (env : NavEnv) : TeleportEnv where
  elPresent := env.elPresent
  infinite := env.infinite
  itemsCount := env.itemsCount
  cardWidth := env.cardWidth
  gap := env.gap
  bufferBeforeCount := env.bufferBeforeCount
  childrenCount := env.childrenCount
  domStride := env.domStride

/-- The stride handleScrollNav measures: the DOM stride when the carousel is
infinite and has rendered children, else cardWidth + gap. -/
def NavEnv.activeStride (env : NavEnv) : ℚ :=
  if env.infinite ∧ 0 < env.childrenCount then
    resolveStride (env.cardWidth + env.gap) env.domStride env.childrenCount
  else env.cardWidth + env.gap

/-- The padding offset: first child offsetLeft for a rendered infinite
carousel, else 0. -/
def NavEnv.paddingOffset (env : NavEnv) : ℚ :=
  if env.infinite ∧ 0 < env.childrenCount then env.firstChildLeft else 0

/-- State threaded through a navigation call: the coordinator context and
the live scroll offset. -/
structure NavState where
  ctx : CarouselContext
  scrollLeft : ℚ

/-- handleScrollNav from useCarouselNavigation.ts, as one synchronous step:
the BOUNCING guard, the finite edge bounce, the rapid-click catch-up (which
first snaps instantly to the prior pending target), the idle index-based
target, the proactive preTeleport for infinite carousels, and the final
ARROW_CLICK dispatch.  The smooth scroll toward the committed target is
asynchronous and not part of the step. -/
def handleScrollNav (env : NavEnv) (direction : ℤ) (bounceTimeoutId : ℕ)
    (s : NavState) : NavState :=
  if ¬env.elPresent then s
  else if s.ctx.phase = .BOUNCING then s
  else
    let currentScroll := s.scrollLeft
    let isAtStart := currentScroll ≤ EDGE_TOLERANCE_START
    let isAtEnd := currentScroll ≥ env.maxScroll - EDGE_TOLERANCE_END
    if ¬env.infinite ∧ ((direction = -1 ∧ isAtStart) ∨ (direction = 1 ∧ isAtEnd)) then
      -- finite edge reached: bounce instead of scrolling
      { s with ctx := reduce s.ctx (.START_BOUNCE bounceTimeoutId) }
    else
      let activeStride := env.activeStride
      let paddingOffset := env.paddingOffset
      match s.ctx.pendingTarget with
      | some previousTarget =>
          -- rapid click mid-animation: catch up instantly, then advance
          let caughtUpScroll := previousTarget
          let targetScroll := previousTarget + direction * activeStride
          let step :=
            if env.infinite then
              preTeleport env.toTeleportEnv s.ctx caughtUpScroll targetScroll
            else (targetScroll, s.ctx, caughtUpScroll)
          { ctx := reduce step.2.1 (.ARROW_CLICK direction step.1)
            scrollLeft := step.2.2 }
      | none =>
          -- idle: compute the next index from the current offset
          let currentIndex : ℤ := round (currentScroll / activeStride)
          let nextIndex := currentIndex + direction
          let targetScroll :=
            match (if env.infinite then env.childLeft nextIndex else none) with
            | some left => left - paddingOffset
            | none => paddingOffset + nextIndex * activeStride
          let step :=
            if env.infinite then
              preTeleport env.toTeleportEnv s.ctx currentScroll targetScroll
            else (targetScroll, s.ctx, currentScroll)
          { ctx := reduce step.2.1 (.ARROW_CLICK direction step.1)
            scrollLeft := step.2.2 }

lemma NavEnv.activeStride_eq_stride (env : NavEnv) (hinf : env.infinite = true) :
    env.activeStride = env.toTeleportEnv.stride := by
  unfold NavEnv.activeStride TeleportEnv.stride NavEnv.toTeleportEnv
  by_cases hc : 0 < env.childrenCount
  · simp [hinf, hc]
  · have hnc : env.childrenCount = 0 := by omega
    simp [hinf, hc, resolveStride, hnc]

lemma handleScrollNav_rapid_step (env : NavEnv) (d : ℤ) (tid : ℕ) (s : NavState) (t : ℚ)
    (hel : env.elPresent = true) (hinf : env.infinite = true)
    (hphase : s.ctx.phase = .SCROLLING)
    (hpending : s.ctx.pendingTarget = some t)
    (hsafe1 : env.toTeleportEnv.bufferBeforeWidth ≤ t + d * env.activeStride)
    (hsafe2 : t + d * env.activeStride <
      env.toTeleportEnv.bufferBeforeWidth + env.toTeleportEnv.originalSetWidth) :
    handleScrollNav env d tid s =
      { ctx := reduce s.ctx (.ARROW_CLICK d (t + d * env.activeStride))
        scrollLeft := t } := by
  unfold handleScrollNav
  rw [if_neg (by simp [hel])]
  rw [if_neg (by rw [hphase]; simp)]
  simp only [hpending, hinf]
  rw [if_neg (by simp [hinf])]
  simp only [if_true]
  rw [preTeleport_of_safe env.toTeleportEnv s.ctx t (t + d * env.activeStride) hsafe1 hsafe2]

/-- C5 Catch-up monotonicity: with a pending target t0 already present, each
navigation call snaps to the prior target and advances it by direction *
stride; N rapid same-direction calls (with every intermediate target inside
the safe zone so the proactive teleport never rewrites it) leave the pending
target at t0 + N * direction * stride, still in the SCROLLING phase. -/
theorem rapid_click_catch_up_monotonic (env : NavEnv) (d : ℤ) (tid : ℕ) (s : NavState)
    (t0 : ℚ) (N : ℕ)
    (hel : env.elPresent = true) (hinf : env.infinite = true)
    (hphase : s.ctx.phase = .SCROLLING)
    (hpending : s.ctx.pendingTarget = some t0)
    (_hdir : d = 1 ∨ d = -1)
    (hsafe : ∀ k : ℕ, k < N →
      env.toTeleportEnv.bufferBeforeWidth ≤ t0 + ((k : ℚ) + 1) * d * env.activeStride ∧
      t0 + ((k : ℚ) + 1) * d * env.activeStride <
        env.toTeleportEnv.bufferBeforeWidth + env.toTeleportEnv.originalSetWidth) :
    ((handleScrollNav env d tid)^[N] s).ctx.pendingTarget =
      some (t0 + (N : ℚ) * d * env.activeStride) ∧
    ((handleScrollNav env d tid)^[N] s).ctx.phase = .SCROLLING := by
  induction N with
  | zero => simpa using ⟨hpending, hphase⟩
  | succ n ih =>
      obtain ⟨ihT, ihP⟩ := ih (fun k hk => hsafe k (Nat.lt_succ_of_lt hk))
      set sn := (handleScrollNav env d tid)^[n] s with hsn
      have hstep := handleScrollNav_rapid_step env d tid sn
        (t0 + (n : ℚ) * d * env.activeStride) hel hinf ihP ihT
        (by
          have h := (hsafe n (Nat.lt_succ_self n)).1
          have : t0 + ((n : ℚ) + 1) * d * env.activeStride =
              t0 + (n : ℚ) * d * env.activeStride + d * env.activeStride := by ring
          linarith [h, this.ge.trans_eq' rfl])
        (by
          have h := (hsafe n (Nat.lt_succ_self n)).2
          have heq : t0 + ((n : ℚ) + 1) * d * env.activeStride =
              t0 + (n : ℚ) * d * env.activeStride + d * env.activeStride := by ring
          linarith [h, heq])
      rw [Function.iterate_succ_apply', ← hsn, hstep]
      constructor
      · show (reduce sn.ctx
          (.ARROW_CLICK d (t0 + (n : ℚ) * d * env.activeStride + d * env.activeStride))).pendingTarget = _
        rw [reduce]
        rw [if_neg (by rw [ihP]; simp)]
        simp only []
        congr 1
        push_cast
        ring
      · show (reduce sn.ctx
          (.ARROW_CLICK d (t0 + (n : ℚ) * d * env.activeStride + d * env.activeStride))).phase = _
        rw [reduce]
        rw [if_neg (by rw [ihP]; simp)]

/-- Concrete environment for the C5 witness: an infinite ten-item carousel
with stride 10 and a twenty-item leading buffer (safe zone [200, 300)). -/
def navWitnessEnv : NavEnv where
  elPresent := true
  infinite := true
  itemsCount := 10
  bufferBeforeCount := 20
  cardWidth := 10
  gap := 0
  childrenCount := 0
  domStride := 0
  firstChildLeft := 0
  childLeft := fun _ => none
  maxScroll := 1000

/-- Concrete state for the C5 witness: mid-animation at offset 230 with
pendingTarget 230. -/
def navWitnessState : NavState where
  ctx := { createInitialContext with phase := .SCROLLING, pendingTarget := some 230 }
  scrollLeft := 230

/-- Witness for C5: two rapid right clicks advance the pending target from
230 to 230 + 2 * stride. -/
theorem rapid_click_catch_up_monotonic_witness :
    ((handleScrollNav navWitnessEnv 1 0)^[2] navWitnessState).ctx.pendingTarget =
      some (230 + (2 : ℚ) * 1 * navWitnessEnv.activeStride) ∧
    ((handleScrollNav navWitnessEnv 1 0)^[2] navWitnessState).ctx.phase = .SCROLLING :=
  rapid_click_catch_up_monotonic navWitnessEnv 1 0 navWitnessState 230 2 rfl rfl rfl rfl
    (Or.inl rfl)
    (by
      intro k hk
      interval_cases k <;>
        norm_num [navWitnessEnv, NavEnv.activeStride, NavEnv.toTeleportEnv,
          TeleportEnv.bufferBeforeWidth, TeleportEnv.originalSetWidth,
          TeleportEnv.stride, resolveStride])

/- ═══════════ Visual effects (applyVisuals, useCarouselVisuals) ═══════════ -/

/-- The cubic ease factor applyVisuals computes for one item from its
distance to the container center: normDist = min(dist / maxDist, 1),
factor = 1 - normDist, easeFactor = 1 - (1 - factor)^3. -/
def easeFactor (dist maxDist : ℚ) : ℚ :=
  let normDist := min (dist / maxDist) 1
  let factor := 1 - normDist
  1 - (1 - factor) ^ 3

/-- The scale applyVisuals writes: baseScale + scaleRange * easeFactor with
scaleRange = 1 - baseScale. -/
def itemScale (dist maxDist baseScale : ℚ) : ℚ :=
  let scaleRange := 1 - baseScale
  baseScale + scaleRange * easeFactor dist maxDist

/-- The opacity applyVisuals writes: 0.5 + 0.5 * easeFactor, overridden to 1
when the distance is below CENTER_THRESHOLD. -/
def itemOpacity (dist maxDist centerThreshold : ℚ) : ℚ :=
  if dist < centerThreshold then 1
  else 0.5 + 0.5 * easeFactor dist maxDist

lemma easeFactor_eq (dist maxDist : ℚ) :
    easeFactor dist maxDist = 1 - (min (dist / maxDist) 1) ^ 3 := by
  unfold easeFactor
  ring

lemma normDist_nonneg {d c : ℚ} (hd : 0 ≤ d) (hc : 0 < c) : 0 ≤ min (d / c) 1 :=
  le_min (by positivity) zero_le_one

lemma easeFactor_anti {c : ℚ} (hc : 0 < c) {d1 d2 : ℚ} (h0 : 0 ≤ d1) (h : d1 ≤ d2) :
    easeFactor d2 c ≤ easeFactor d1 c := by
  rw [easeFactor_eq, easeFactor_eq]
  have hmono : min (d1 / c) 1 ≤ min (d2 / c) 1 := by gcongr
  have hcube : (min (d1 / c) 1) ^ 3 ≤ (min (d2 / c) 1) ^ 3 :=
    pow_le_pow_left (normDist_nonneg h0 hc) hmono 3
  linarith

lemma easeFactor_nonneg {c : ℚ} (hc : 0 < c) {d : ℚ} (hd : 0 ≤ d) :
    0 ≤ easeFactor d c := by
  rw [easeFactor_eq]
  have : (min (d / c) 1) ^ 3 ≤ 1 :=
    pow_le_one (normDist_nonneg hd hc) (min_le_right _ _)
  linarith

lemma easeFactor_le_one {c : ℚ} (hc : 0 < c) {d : ℚ} (hd : 0 ≤ d) :
    easeFactor d c ≤ 1 := by
  rw [easeFactor_eq]
  have : 0 ≤ (min (d / c) 1) ^ 3 := pow_nonneg (normDist_nonneg hd hc) 3
  linarith

lemma easeFactor_zero (c : ℚ) : easeFactor 0 c = 1 := by
  rw [easeFactor_eq]
  rw [zero_div, min_eq_left zero_le_one]
  norm_num

lemma easeFactor_far {c : ℚ} (hc : 0 < c) {d : ℚ} (h : c ≤ d) :
    easeFactor d c = 0 := by
  rw [easeFactor_eq]
  have h1 : (1 : ℚ) ≤ d / c := (one_le_div hc).mpr h
  rw [min_eq_right h1]
  norm_num

/-- C7 Visual monotonicity: the scale and opacity applyVisuals computes (and
the linear variants in utils.ts) are non-increasing in the distance from the
container center; at distance 0 the scale is 1, hence inside
[baseScale, 1]; and once distance / maxDist reaches 1 the scale equals
baseScale exactly. -/
theorem visual_monotonicity (maxDist baseScale centerThreshold halfViewport baseOpacity : ℚ)
    (hmax : 0 < maxDist) (hbase : baseScale ≤ 1)
    (hhalf : 0 < halfViewport) (hbo : baseOpacity ≤ 1) :
    (∀ d1 d2 : ℚ, 0 ≤ d1 → d1 ≤ d2 →
      itemScale d2 maxDist baseScale ≤ itemScale d1 maxDist baseScale ∧
      itemOpacity d2 maxDist centerThreshold ≤ itemOpacity d1 maxDist centerThreshold ∧
      calculateVisualScale d2 halfViewport baseScale ≤
        calculateVisualScale d1 halfViewport baseScale ∧
      calculateVisualOpacity d2 halfViewport baseOpacity centerThreshold ≤
        calculateVisualOpacity d1 halfViewport baseOpacity centerThreshold) ∧
    (itemScale 0 maxDist baseScale = 1 ∧
      baseScale ≤ itemScale 0 maxDist baseScale ∧ itemScale 0 maxDist baseScale ≤ 1) ∧
    (∀ d : ℚ, maxDist ≤ d → itemScale d maxDist baseScale = baseScale) ∧
    (∀ d : ℚ, halfViewport ≤ d → calculateVisualScale d halfViewport baseScale = baseScale) := by
  have hrange : (0 : ℚ) ≤ 1 - baseScale := by linarith
  refine ⟨?_, ?_, ?_, ?_⟩
  · intro d1 d2 h0 h12
    have h02 : (0 : ℚ) ≤ d2 := le_trans h0 h12
    have he : easeFactor d2 maxDist ≤ easeFactor d1 maxDist := easeFactor_anti hmax h0 h12
    have he1 : easeFactor d2 maxDist ≤ 1 := easeFactor_le_one hmax h02
    have hnm : min (d1 / halfViewport) 1 ≤ min (d2 / halfViewport) 1 := by gcongr
    have hn1 : min (d2 / halfViewport) 1 ≤ 1 := min_le_right _ _
    have hnn1 : (0 : ℚ) ≤ min (d1 / halfViewport) 1 := normDist_nonneg h0 hhalf
    have hnn2 : (0 : ℚ) ≤ min (d2 / halfViewport) 1 := normDist_nonneg h02 hhalf
    refine ⟨?_, ?_, ?_, ?_⟩
    · simp only [itemScale]
      nlinarith
    · simp only [itemOpacity]
      split_ifs with ha hb hb
      · exact le_refl 1
      · exact absurd (lt_of_le_of_lt h12 ha) hb
      · nlinarith
      · nlinarith
    · simp only [calculateVisualScale]
      nlinarith
    · simp only [calculateVisualOpacity]
      split_ifs with ha hb hb
      · exact le_refl 1
      · exact absurd (lt_of_le_of_lt h12 ha) hb
      · nlinarith
      · nlinarith
  · have h0 : itemScale 0 maxDist baseScale = 1 := by
      unfold itemScale
      rw [easeFactor_zero maxDist]
      ring
    exact ⟨h0, by rw [h0]; exact hbase, by rw [h0]⟩
  · intro d hd
    unfold itemScale
    rw [easeFactor_far hmax hd]
    ring
  · intro d hd
    unfold calculateVisualScale
    have h1 : (1 : ℚ) ≤ d / halfViewport := (one_le_div hhalf).mpr hd
    rw [min_eq_right h1]
    ring

/-- Witness for C7 at the desktop tier (maxDist 500, baseScale 0.85,
centerThreshold 10). -/
theorem visual_monotonicity_witness :
    (∀ d1 d2 : ℚ, 0 ≤ d1 → d1 ≤ d2 →
      itemScale d2 500 0.85 ≤ itemScale d1 500 0.85 ∧
      itemOpacity d2 500 10 ≤ itemOpacity d1 500 10 ∧
      calculateVisualScale d2 500 0.85 ≤ calculateVisualScale d1 500 0.85 ∧
      calculateVisualOpacity d2 500 0.5 10 ≤ calculateVisualOpacity d1 500 0.5 10) ∧
    (itemScale 0 500 0.85 = 1 ∧
      (0.85 : ℚ) ≤ itemScale 0 500 0.85 ∧ itemScale 0 500 0.85 ≤ 1) ∧
    (∀ d : ℚ, 500 ≤ d → itemScale d 500 0.85 = 0.85) ∧
    (∀ d : ℚ, 500 ≤ d → calculateVisualScale d 500 0.85 = 0.85) :=
  visual_monotonicity 500 0.85 10 500 0.5 (by norm_num) (by norm_num) (by norm_num)
    (by norm_num)

/- ═══════════ Drag physics: edge rubber band (useDraggableScroll) ═══════════ -/

/-- PULL_RESISTANCE from useDraggableScroll. -/
def PULL_RESISTANCE : ℚ := 0.35

/-- MAX_PULL_DISTANCE from useDraggableScroll. -/
def MAX_PULL_DISTANCE : ℚ := 80

/-- SNAP_BACK_DURATION from useDraggableScroll. -/
def SNAP_BACK_DURATION : ℚ := 250

/-- VELOCITY_SMOOTHING from useDraggableScroll. -/
def VELOCITY_SMOOTHING : ℚ := 0.15

/-- The damped pull offset onPointerMove computes at an edge:
sign * sqrt(min(|pull|, max) / max) * max.  Over the reals because of the
square root. -/
noncomputable def dampedPull (pullAmount : ℚ) : ℝ :=
  let sign : ℝ := if 0 < pullAmount then 1 else -1
  let absPull : ℚ := min |pullAmount| MAX_PULL_DISTANCE
  sign * Real.sqrt ((absPull : ℝ) / (MAX_PULL_DISTANCE : ℝ)) * (MAX_PULL_DISTANCE : ℝ)

/-- The inputs one onPointerMove invocation reads: flags, pointer positions,
timing, the tracked velocity and the live scroll state.  The transform is
none when the inline style is the empty string. -/
structure MoveInput where
  infinite : Bool
  hasNextPage : Bool
  isDown : Bool
  isBouncing : Bool
  isPullingEdge : Bool
  isDragging : Bool
  startedAtLeftEdge : Bool
  startedAtRightEdge : Bool
  startX : ℚ
  lastPageX : ℚ
  pageX : ℚ
  lastTimestamp : ℚ
  now : ℚ
  velocity : ℚ
  scrollLeftStart : ℚ
  scrollLeft : ℚ
  maxScroll : ℚ
  transform : Option ℝ
  currentPullOffset : ℝ

/-- What one onPointerMove invocation writes. -/
structure MoveResult where
  scrollLeft : ℚ
  transform : Option ℝ
  currentPullOffset : ℝ
  isPullingEdge : Bool
  velocity : ℚ

/-- onPointerMove from useDraggableScroll: velocity smoothing, the edge
rubber-band branch (a damped transform, the real offset untouched) and the
normal drag branch (offset follows the pointer once past the 10px click
threshold). -/
noncomputable def onPointerMoveModel (m : MoveInput) : MoveResult :=
  if ¬m.isDown then
    ⟨m.scrollLeft, m.transform, m.currentPullOffset, m.isPullingEdge, m.velocity⟩
  else
    let timeDelta := m.now - m.lastTimestamp
    let velocity :=
      if 0 < timeDelta then
        m.velocity * (1 - VELOCITY_SMOOTHING) +
          ((m.pageX - m.lastPageX) / timeDelta) * VELOCITY_SMOOTHING
      else m.velocity
    let walk := m.pageX - m.startX
    let intendedScroll := m.scrollLeftStart - walk
    let isAtLeftEdge : Bool := decide (m.scrollLeft ≤ 20)
    let isAtRightEdge : Bool := decide (m.scrollLeft ≥ m.maxScroll - 5)
    let canPullLeft : Bool :=
      !m.infinite && !m.isBouncing && m.startedAtLeftEdge && isAtLeftEdge &&
        decide (intendedScroll < 0)
    let canPullRight : Bool :=
      !m.infinite && !m.hasNextPage && !m.isBouncing && m.startedAtRightEdge &&
        isAtRightEdge && decide (intendedScroll > m.maxScroll)
    if canPullLeft || canPullRight then
      let pullAmount :=
        if canPullLeft then -intendedScroll * PULL_RESISTANCE
        else -(intendedScroll - m.maxScroll) * PULL_RESISTANCE
      let damped := dampedPull pullAmount
      ⟨m.scrollLeft, some damped, damped, true, velocity⟩
    else
      let transform1 := if m.isPullingEdge then none else m.transform
      let pull1 : ℝ := if m.isPullingEdge then 0 else m.currentPullOffset
      if 10 < |walk| then ⟨intendedScroll, transform1, pull1, false, velocity⟩
      else ⟨m.scrollLeft, transform1, pull1, false, velocity⟩

/-- The four release behaviors of endDrag. -/
inductive ReleaseOutcome
  | ignored
  | snapBack
  | momentum
  | finish
deriving DecidableEq, Repr

/-- endDrag from useDraggableScroll: released while edge-pulling snaps back
and returns before any momentum is started; a recognised drag starts
momentum; everything else only ends the gesture. -/
def endDragOutcome (isDown isPullingEdge isDragging : Bool) : ReleaseOutcome :=
  if ¬isDown then .ignored
  else if isPullingEdge then .snapBack
  else if isDragging then .momentum
  else .finish

/-- The cubic ease-out of snapBack. -/
def snapBackEase (progress : ℚ) : ℚ := 1 - (1 - progress) ^ 3

/-- One snapBack animation frame at a given elapsed time: the transform it
leaves on the element (none is the empty string).  It writes no scroll
offset at all.  Once progress reaches 1 the transform is cleared. -/
noncomputable def snapBackFrame (startOffset : ℝ) (elapsed : ℚ) : Option ℝ :=
  let progress := min (elapsed / SNAP_BACK_DURATION) 1
  let easeProgress := snapBackEase progress
  let offset := startOffset * (1 - (easeProgress : ℝ))
  if progress < 1 then (if (0.5 : ℝ) < |offset| then some offset else none) else none

lemma dampedPull_capped (p : ℚ) : |dampedPull p| ≤ (MAX_PULL_DISTANCE : ℝ) := by
  unfold dampedPull
  have hmaxQ : (0 : ℚ) < MAX_PULL_DISTANCE := by norm_num [MAX_PULL_DISTANCE]
  have hmax : (0 : ℝ) < (MAX_PULL_DISTANCE : ℝ) := by exact_mod_cast hmaxQ
  have hle : (min |p| MAX_PULL_DISTANCE : ℚ) ≤ MAX_PULL_DISTANCE := min_le_right _ _
  have harg : ((min |p| MAX_PULL_DISTANCE : ℚ) : ℝ) / (MAX_PULL_DISTANCE : ℝ) ≤ 1 := by
    rw [div_le_one hmax]
    exact_mod_cast hle
  have hs1 : Real.sqrt (((min |p| MAX_PULL_DISTANCE : ℚ) : ℝ) / (MAX_PULL_DISTANCE : ℝ)) ≤ 1 :=
    Real.sqrt_le_one.mpr harg
  have hs0 : 0 ≤ Real.sqrt (((min |p| MAX_PULL_DISTANCE : ℚ) : ℝ) / (MAX_PULL_DISTANCE : ℝ)) :=
    Real.sqrt_nonneg _
  split_ifs with hp <;>
    · rw [abs_mul, abs_mul]
      simp only [abs_one, abs_neg, one_mul]
      rw [abs_of_nonneg hs0, abs_of_pos hmax]
      nlinarith

lemma snapBackFrame_done (startOffset : ℝ) (elapsed : ℚ)
    (h : SNAP_BACK_DURATION ≤ elapsed) :
    snapBackFrame startOffset elapsed = none := by
  unfold snapBackFrame
  have hdur : (0 : ℚ) < SNAP_BACK_DURATION := by norm_num [SNAP_BACK_DURATION]
  have h1 : (1 : ℚ) ≤ elapsed / SNAP_BACK_DURATION := (one_le_div hdur).mpr h
  rw [min_eq_right h1]
  simp

/-- C8 Round-trip rubber band: pulling a finite carousel edge applies only
the damped transform sign * sqrt(min(|pull|, max) / max) * max (so its
magnitude never exceeds the maximum pull distance) and leaves the real
scroll offset untouched; releasing while edge-pulling always takes the
snap-back path (never momentum), and every snap-back frame at or past the
snap-back duration leaves the transform empty (snapBackFrame writes no
scroll offset by construction). -/
theorem rubber_band_round_trip (m : MoveInput)
    (hdown : m.isDown = true)
    (hfin : m.infinite = false)
    (hnb : m.isBouncing = false)
    (hstart : m.startedAtLeftEdge = true)
    (hedge : m.scrollLeft ≤ 20)
    (hpull : m.scrollLeftStart - (m.pageX - m.startX) < 0) :
    ((onPointerMoveModel m).scrollLeft = m.scrollLeft ∧
      (onPointerMoveModel m).transform =
        some (dampedPull (-(m.scrollLeftStart - (m.pageX - m.startX)) * PULL_RESISTANCE)) ∧
      (onPointerMoveModel m).isPullingEdge = true) ∧
    (∀ p : ℚ, |dampedPull p| ≤ (MAX_PULL_DISTANCE : ℝ)) ∧
    endDragOutcome true true m.isDragging = .snapBack ∧
    (∀ startOffset : ℝ, ∀ elapsed : ℚ, SNAP_BACK_DURATION ≤ elapsed →
      snapBackFrame startOffset elapsed = none) := by
  refine ⟨?_, dampedPull_capped, rfl, fun s e he => snapBackFrame_done s e he⟩
  have hleft : (!m.infinite && !m.isBouncing && m.startedAtLeftEdge &&
      decide (m.scrollLeft ≤ 20) &&
      decide (m.scrollLeftStart - (m.pageX - m.startX) < 0)) = true := by
    simp [hfin, hnb, hstart, hedge, hpull]
  simp only [onPointerMoveModel]
  rw [if_neg (by simp [hdown])]
  rw [if_pos (by rw [hleft]; simp)]
  rw [if_pos hleft]
  exact ⟨rfl, rfl, rfl⟩

/-- Concrete input for the C8 witness: a left-edge pull on a finite
carousel. -/
def rubberWitnessInput : MoveInput where
  infinite := false
  hasNextPage := false
  isDown := true
  isBouncing := false
  isPullingEdge := false
  isDragging := true
  startedAtLeftEdge := true
  startedAtRightEdge := false
  startX := 0
  lastPageX := 50
  pageX := 100
  lastTimestamp := 0
  now := 10
  velocity := 0
  scrollLeftStart := 0
  scrollLeft := 0
  maxScroll := 500
  transform := none
  currentPullOffset := 0

/-- Witness for C8 at a concrete 100px left-edge pull. -/
theorem rubber_band_round_trip_witness :
    ((onPointerMoveModel rubberWitnessInput).scrollLeft = rubberWitnessInput.scrollLeft ∧
      (onPointerMoveModel rubberWitnessInput).transform =
        some (dampedPull (-(rubberWitnessInput.scrollLeftStart -
          (rubberWitnessInput.pageX - rubberWitnessInput.startX)) * PULL_RESISTANCE)) ∧
      (onPointerMoveModel rubberWitnessInput).isPullingEdge = true) ∧
    (∀ p : ℚ, |dampedPull p| ≤ (MAX_PULL_DISTANCE : ℝ)) ∧
    endDragOutcome true true rubberWitnessInput.isDragging = .snapBack ∧
    (∀ startOffset : ℝ, ∀ elapsed : ℚ, SNAP_BACK_DURATION ≤ elapsed →
      snapBackFrame startOffset elapsed = none) :=
  rubber_band_round_trip rubberWitnessInput rfl rfl rfl rfl (by norm_num [rubberWitnessInput])
    (by norm_num [rubberWitnessInput])

/- ═══════════ Snap-to-nearest (findNearestSnapPoint, useDraggableScroll) ═══════════ -/

/-- Rendered geometry of one child (offsetLeft, offsetWidth). -/
structure ChildBox where
  offsetLeft : ℚ
  offsetWidth : ℚ
deriving DecidableEq, Repr

/-- The visual center of a child. -/
def childCenter (c : ChildBox) : ℚ := c.offsetLeft + c.offsetWidth / 2

/-- The scroll offset that centers a child in the container. -/
def snapTargetScroll (clientWidth : ℚ) (c : ChildBox) : ℚ :=
  childCenter c - clientWidth / 2

/-- isInDirection from findNearestSnapPoint: with a positive direction
(scroll moving toward smaller offsets) a candidate must lie before the
container center, with a negative one after it. -/
def inDirection (containerCenter : ℚ) (direction : ℤ) (c : ChildBox) : Prop :=
  if 0 < direction then childCenter c < containerCenter
  else containerCenter < childCenter c

instance (containerCenter : ℚ) (direction : ℤ) (c : ChildBox) :
    Decidable (inDirection containerCenter direction c) := by
  unfold inDirection
  split_ifs <;> infer_instance

/-- Strictly below an optional bound, where none stands for the initial
Infinity of minDistance. -/
def ltInf (d : ℚ) : Option ℚ → Prop
  | none => True
  | some m => d < m

instance (d : ℚ) : (m : Option ℚ) → Decidable (ltInf d m)
  | none => isTrue trivial
  | some m => inferInstanceAs (Decidable (d < m))

/-- One step of the forEach of findNearestSnapPoint; the accumulator is
(nearestPoint, minDistance). -/
def snapFold (containerCenter clientWidth : ℚ) (direction : ℤ)
    (acc : ℚ × Option ℚ) (c : ChildBox) : ℚ × Option ℚ :=
  let distance := |childCenter c - containerCenter|
  let targetScroll := snapTargetScroll clientWidth c
  if direction ≠ 0 then
    if inDirection containerCenter direction c ∧ ltInf distance acc.2 then
      (targetScroll, some distance)
    else acc
  else
    if ltInf distance acc.2 then (targetScroll, some distance) else acc

/-- findNearestSnapPoint from useDraggableScroll: fold over the rendered
children, then clamp the result to the valid scroll range. -/
def findNearestSnapPoint (elPresent : Bool) (children : List ChildBox)
    (clientWidth scrollWidth currentScroll : ℚ) (direction : ℤ) : ℚ :=
  if ¬elPresent then currentScroll
  else if children = [] then currentScroll
  else
    let containerCenter := currentScroll + clientWidth / 2
    let res := children.foldl (snapFold containerCenter clientWidth direction)
      (currentScroll, none)
    let maxScroll := scrollWidth - clientWidth
    max 0 (min maxScroll res.1)

/-- A child the forEach body may select: every child when no direction
preference is given, otherwise only one ahead in the direction. -/
def snapQualifies (containerCenter : ℚ) (direction : ℤ) (c : ChildBox) : Prop :=
  direction = 0 ∨ inDirection containerCenter direction c

instance (containerCenter : ℚ) (direction : ℤ) (c : ChildBox) :
    Decidable (snapQualifies containerCenter direction c) := by
  unfold snapQualifies
  infer_instance

lemma snapFold_eq (cc cw : ℚ) (dir : ℤ) (acc : ℚ × Option ℚ) (c : ChildBox) :
    snapFold cc cw dir acc c =
      if snapQualifies cc dir c ∧ ltInf |childCenter c - cc| acc.2 then
        (snapTargetScroll cw c, some |childCenter c - cc|)
      else acc := by
  unfold snapFold snapQualifies
  by_cases hd : dir = 0
  · subst hd
    simp only [ne_eq, not_true_eq_false, if_false, true_or, true_and]
  · simp only [ne_eq, hd, not_false_eq_true, if_true]
    split_ifs <;> first | rfl | tauto

/-- The fold invariant: either nothing qualified yet (the accumulator is the
initial one, current scroll with infinite distance) or the accumulator holds
a qualifying child of minimal distance among the processed prefix. -/
def GoodAcc (cc cw : ℚ) (dir : ℤ) (s0 : ℚ) (processed : List ChildBox)
    (acc : ℚ × Option ℚ) : Prop :=
  (acc = (s0, none) ∧ ∀ c ∈ processed, ¬ snapQualifies cc dir c) ∨
  (∃ c ∈ processed, snapQualifies cc dir c ∧
    acc = (snapTargetScroll cw c, some |childCenter c - cc|) ∧
    ∀ c' ∈ processed, snapQualifies cc dir c' →
      |childCenter c - cc| ≤ |childCenter c' - cc|)

lemma GoodAcc_step {cc cw : ℚ} {dir : ℤ} {s0 : ℚ} {processed : List ChildBox}
    {acc : ℚ × Option ℚ} (h : GoodAcc cc cw dir s0 processed acc) (c : ChildBox) :
    GoodAcc cc cw dir s0 (processed ++ [c]) (snapFold cc cw dir acc c) := by
  rw [snapFold_eq]
  by_cases hq : snapQualifies cc dir c ∧ ltInf |childCenter c - cc| acc.2
  · rw [if_pos hq]
    rcases h with ⟨hacc, hnone⟩ | ⟨c0, hmem, hq0, hacc, hmin⟩
    · refine Or.inr ⟨c, by simp, hq.1, rfl, ?_⟩
      intro c' hc' hq'
      rcases List.mem_append.mp hc' with h' | h'
      · exact absurd hq' (hnone c' h')
      · simp only [List.mem_singleton] at h'
        subst h'
        exact le_rfl
    · refine Or.inr ⟨c, by simp, hq.1, rfl, ?_⟩
      intro c' hc' hq'
      rcases List.mem_append.mp hc' with h' | h'
      · have hge := hmin c' h' hq'
        have hlt : |childCenter c - cc| < |childCenter c0 - cc| := by
          have h2 := hq.2
          rw [hacc] at h2
          exact h2
        linarith
      · simp only [List.mem_singleton] at h'
        subst h'
        exact le_rfl
  · rw [if_neg hq]
    rcases h with ⟨hacc, hnone⟩ | ⟨c0, hmem, hq0, hacc, hmin⟩
    · refine Or.inl ⟨hacc, ?_⟩
      intro c' hc'
      rcases List.mem_append.mp hc' with h' | h'
      · exact hnone c' h'
      · simp only [List.mem_singleton] at h'
        subst h'
        intro hq'
        refine hq ⟨hq', ?_⟩
        rw [hacc]
        exact trivial
    · refine Or.inr ⟨c0, List.mem_append.mpr (Or.inl hmem), hq0, hacc, ?_⟩
      intro c' hc' hq'
      rcases List.mem_append.mp hc' with h' | h'
      · exact hmin c' h' hq'
      · simp only [List.mem_singleton] at h'
        subst h'
        by_contra hcon
        push_neg at hcon
        refine hq ⟨hq', ?_⟩
        rw [hacc]
        exact hcon

lemma snapFold_foldl (cc cw : ℚ) (dir : ℤ) (s0 : ℚ) :
    ∀ (l processed : List ChildBox) (acc : ℚ × Option ℚ),
      GoodAcc cc cw dir s0 processed acc →
      GoodAcc cc cw dir s0 (processed ++ l)
        (l.foldl (snapFold cc cw dir) acc) := by
  intro l
  induction l with
  | nil =>
      intro processed acc h
      simpa using h
  | cons c t ih =>
      intro processed acc h
      rw [List.foldl_cons]
      have := ih (processed ++ [c]) (snapFold cc cw dir acc c) (GoodAcc_step h c)
      simpa [List.append_assoc] using this

/-- C9 counterexample: with a direction preference and no candidate ahead,
findNearestSnapPoint stays at the (clamped) current scroll offset instead of
selecting the closest child overall.  One child centered at 105, container
center 5, direction 1 (which prefers centers before the container center):
the code returns 0, while the closest child overall would give 100. -/
theorem snap_direction_fallback_counterexample :
    findNearestSnapPoint true [⟨100, 10⟩] 10 110 0 1 = 0 ∧
    max 0 (min ((110 : ℚ) - 10) (snapTargetScroll 10 ⟨100, 10⟩)) = 100 ∧
    (0 : ℚ) ≠ 100 := by
  refine ⟨?_, ?_, by norm_num⟩
  · norm_num [findNearestSnapPoint, snapFold, inDirection, ltInf, childCenter,
      snapTargetScroll]
  · norm_num [snapTargetScroll, childCenter]

/-- C9 amended: among the rendered children the snap target is (clamped to
the valid scroll range) the position centering a child of minimal distance
to the container center; with a direction preference only candidates ahead
in that direction are considered, and when none qualifies the function
returns the (clamped) current scroll offset, not the closest child
overall. -/
theorem snap_to_nearest_characterization (children : List ChildBox)
    (clientWidth scrollWidth currentScroll : ℚ) (direction : ℤ)
    (hne : children ≠ []) :
    ((direction ≠ 0 ∧ ∀ c ∈ children,
        ¬ inDirection (currentScroll + clientWidth / 2) direction c) →
      findNearestSnapPoint true children clientWidth scrollWidth currentScroll direction =
        max 0 (min (scrollWidth - clientWidth) currentScroll)) ∧
    ((∃ c ∈ children, snapQualifies (currentScroll + clientWidth / 2) direction c) →
      ∃ c ∈ children, snapQualifies (currentScroll + clientWidth / 2) direction c ∧
        findNearestSnapPoint true children clientWidth scrollWidth currentScroll direction =
          max 0 (min (scrollWidth - clientWidth) (snapTargetScroll clientWidth c)) ∧
        ∀ c' ∈ children, snapQualifies (currentScroll + clientWidth / 2) direction c' →
          |childCenter c - (currentScroll + clientWidth / 2)| ≤
            |childCenter c' - (currentScroll + clientWidth / 2)|) := by
  have hgood := snapFold_foldl (currentScroll + clientWidth / 2) clientWidth direction
    currentScroll children [] (currentScroll, none) (Or.inl ⟨rfl, by simp⟩)
  rw [List.nil_append] at hgood
  have hfnd : findNearestSnapPoint true children clientWidth scrollWidth currentScroll
      direction =
      max 0 (min (scrollWidth - clientWidth)
        ((children.foldl
          (snapFold (currentScroll + clientWidth / 2) clientWidth direction)
          (currentScroll, none)).1)) := by
    simp only [findNearestSnapPoint]
    rw [if_neg (by simp), if_neg (by simpa using hne)]
  constructor
  · rintro ⟨hd0, hnodir⟩
    rcases hgood with ⟨hres, -⟩ | ⟨c, hc, hq, -, -⟩
    · rw [hfnd, hres]
    · rcases hq with hq | hq
      · exact absurd hq hd0
      · exact absurd hq (hnodir c hc)
  · rintro ⟨c1, hc1, hq1⟩
    rcases hgood with ⟨-, hnone⟩ | ⟨c, hc, hq, hres, hmin⟩
    · exact absurd hq1 (hnone c1 hc1)
    · exact ⟨c, hc, hq, by rw [hfnd, hres], hmin⟩

/-- Witness for C9 amended: two children, no direction preference; the one
centered at 5 (distance 0 to the container center) wins. -/
theorem snap_to_nearest_characterization_witness :
    (((1 : ℤ) ≠ 0 ∧ ∀ c ∈ [ChildBox.mk 0 10, ChildBox.mk 100 10],
        ¬ inDirection ((0 : ℚ) + 10 / 2) 1 c) →
      findNearestSnapPoint true [ChildBox.mk 0 10, ChildBox.mk 100 10] 10 110 0 1 =
        max 0 (min ((110 : ℚ) - 10) 0)) ∧
    ((∃ c ∈ [ChildBox.mk 0 10, ChildBox.mk 100 10],
        snapQualifies ((0 : ℚ) + 10 / 2) 1 c) →
      ∃ c ∈ [ChildBox.mk 0 10, ChildBox.mk 100 10],
        snapQualifies ((0 : ℚ) + 10 / 2) 1 c ∧
        findNearestSnapPoint true [ChildBox.mk 0 10, ChildBox.mk 100 10] 10 110 0 1 =
          max 0 (min ((110 : ℚ) - 10) (snapTargetScroll 10 c)) ∧
        ∀ c' ∈ [ChildBox.mk 0 10, ChildBox.mk 100 10],
          snapQualifies ((0 : ℚ) + 10 / 2) 1 c' →
          |childCenter c - ((0 : ℚ) + 10 / 2)| ≤ |childCenter c' - ((0 : ℚ) + 10 / 2)|) :=
  snap_to_nearest_characterization [ChildBox.mk 0 10, ChildBox.mk 100 10] 10 110 0 1
    (by simp)

end OpenCarousel
